import Mathlib

/-!
Verification of the EPUB exporter (`epub_exporter.py`) of the AI novel
generator repository, as a shallow embedding in Lean 4.

The embedding follows the Python source closely:

* `EPubExporter` mirrors the exporter class (title, author, mutable chapter
  list modelled by functional update).
* Each `_create_*` method that builds an XML document is embedded as a pure
  function producing a value of the `Xml` tree type, which mirrors
  `xml.etree.ElementTree` elements (tag, attribute list, optional text,
  children).  Calls to `uuid.uuid4()` and `datetime.now()` are modelled as
  explicit parameters, since each call site draws a fresh value.
* `export_to_epub` has filesystem effects; they are modelled by a stage
  machine (`Stage`, `runStages`): each statement of the `try:` block is a
  stage which may raise, raising is modelled by a fault function
  `Stage → Bool`, and the observable state tracks whether the scratch
  directory and the archive currently exist.
* `_create_epub_archive` is modelled on a file list: it produces the list of
  zip entries (arcname, compression method, file data) in write order.
* The collaborator entry point `export_novel_to_epub` is embedded over a
  directory listing plus a read function.
-/

/-! ### Python string primitives

The Python string methods used by the exporter (`str.strip`, `str.split`,
`str.startswith`, `str.endswith`, `str.replace`, `int(...)`) are embedded as
structurally recursive functions on `List Char`, so that every observation
made by the theorems below is computable by kernel reduction. -/

/-- Characters stripped by Python's `str.strip()` (the ASCII whitespace
characters; the exporter only ever strips ASCII whitespace). -/
def isPySpace (c : Char) : Bool :=
  c = ' ' || c = '\t' || c = '\n' || c = '\r' || c = '\x0b' || c = '\x0c'

/-- Python `str.strip()`: remove leading and trailing whitespace. -/
def pyStrip (s : String) : String :=
  String.mk (((s.data.dropWhile isPySpace).reverse.dropWhile isPySpace).reverse)

def pySplitCharAux (sep : Char) : List Char → List Char → List String
  | [], acc => [String.mk acc.reverse]
  | c :: rest, acc =>
    if c = sep then String.mk acc.reverse :: pySplitCharAux sep rest []
    else pySplitCharAux sep rest (c :: acc)

/-- Python `str.split(sep)` for a one-character separator, as used by
`content.split('\n')`: `""` splits to `[""]`, and empty pieces are kept. -/
def pySplitChar (sep : Char) (s : String) : List String :=
  pySplitCharAux sep s.data []

/-- Python `str.startswith(prefix)`. -/
def pyStartsWith (s pre : String) : Bool :=
  pre.data.isPrefixOf s.data

/-- Python `str.endswith(suffix)`. -/
def pyEndsWith (s suf : String) : Bool :=
  suf.data.isSuffixOf s.data

def pyReplaceFuel (old new : List Char) : Nat → List Char → List Char
  | 0, cs => cs
  | _ + 1, [] => []
  | fuel + 1, c :: rest =>
    if old ≠ [] ∧ old.isPrefixOf (c :: rest) then
      new ++ pyReplaceFuel old new fuel ((c :: rest).drop old.length)
    else
      c :: pyReplaceFuel old new fuel rest

/-- Python `str.replace(old, new)`: replace every non-overlapping occurrence
of `old`, scanning left to right.  Structural recursion is obtained with a
fuel argument; fuel `s.length` suffices because every step consumes at least
one character (the exporter never calls `replace` with an empty `old`, for
which Python has special behaviour not needed here). -/
def pyReplace (s old new : String) : String :=
  String.mk (pyReplaceFuel old.data new.data s.data.length s.data)

def pyIntGo (acc : Nat) : List Char → Option Nat
  | [] => some acc
  | '_' :: d :: rest =>
    if d.isDigit then pyIntGo (acc * 10 + (d.toNat - 48)) rest else none
  | ['_'] => none
  | d :: rest =>
    if d.isDigit then pyIntGo (acc * 10 + (d.toNat - 48)) rest else none

/-- Digit-sequence part of Python's `int(...)`: one or more ASCII digits,
optionally separated by single underscores. -/
def pyIntCore : List Char → Option Nat
  | [] => none
  | c :: rest => if c.isDigit then pyIntGo (c.toNat - 48) rest else none

/-- Python `int(s)` on a decimal string: surrounding whitespace stripped,
optional sign, then digits; `none` models a raised `ValueError`. -/
def pyInt? (s : String) : Option Int :=
  match (pyStrip s).data with
  | '-' :: rest => (pyIntCore rest).map (fun n => -(n : Int))
  | '+' :: rest => (pyIntCore rest).map (fun n => (n : Int))
  | cs => (pyIntCore cs).map (fun n => (n : Int))

/-- Python truthiness of a string: `if line:` is `True` iff nonempty. -/
def pyTruthy (s : String) : Bool :=
  s ≠ ""

/-- XML element mirroring `xml.etree.ElementTree.Element`:
tag, attribute list, optional text, list of children (in append order). -/
inductive Xml where
  | elem (tag : String) (attrs : List (String × String)) (text : Option String)
      (children : List Xml)

namespace Xml

def tag : Xml → String
  | .elem t _ _ _ => t

def attrs : Xml → List (String × String)
  | .elem _ a _ _ => a

def text : Xml → Option String
  | .elem _ _ s _ => s

def children : Xml → List Xml
  | .elem _ _ _ c => c

/-- Value of attribute `name`, like `element.get(name)` in ElementTree. -/
def attr (x : Xml) (name : String) : Option String :=
  (x.attrs.find? (fun p => p.1 = name)).map (·.2)

/-- First child with the given tag, like `element.find(tag)`. -/
def findChild (x : Xml) (t : String) : Option Xml :=
  x.children.find? (fun c => c.tag = t)

end Xml

/-- A chapter as stored by `add_chapter`: the dict
`{'number': ..., 'title': ..., 'content': ...}`. -/
structure Chapter where
  number : Int
  title : String
  content : String
  deriving Repr, DecidableEq

/-- The exporter object: `novel_title`, `author`, and the growing
`chapters` list. -/
structure EPubExporter where
  novel_title : String
  author : String
  chapters : List Chapter
  deriving Repr, DecidableEq

namespace EPubExporter

/-- `EPubExporter.__init__`: starts with an empty chapter list. -/
def init (novel_title : String) (author : String := "AI小说生成器") :
    EPubExporter :=
  { novel_title := novel_title, author := author, chapters := [] }

/-- `add_chapter`: appends the chapter dict to `self.chapters`,
with no validation of any kind. -/
def add_chapter (e : EPubExporter) (chapter_number : Int) (title : String)
    (content : String) : EPubExporter :=
  { e with chapters :=
      e.chapters ++ [{ number := chapter_number, title := title,
                       content := content }] }

end EPubExporter

/-! ### The generated EPUB documents

One pure function per `_create_*` method.  Each call of `_generate_uuid()`
(`uuid.uuid4()`) and of `datetime.now().strftime(...)` is modelled as an
explicit parameter, since every call site draws a fresh value. -/

/-- Identifier `chapter_<number>` derived from the chapter number, used in
the manifest (`id`), spine (`idref`) and navigation map (`id`). -/
def chapterId (n : Int) : String :=
  "chapter_" ++ toString n

/-- File name `chapter_<number>.xhtml`. -/
def chapterFileName (n : Int) : String :=
  chapterId n ++ ".xhtml"

/-- Heading `第<number>章 <title>` used as page title, `h1` and nav label. -/
def chapterHeading (c : Chapter) : String :=
  "第" ++ toString c.number ++ "章 " ++ c.title

/-- `_create_container_xml`: the `META-INF/container.xml` document. -/
def create_container_xml : Xml :=
  .elem "container"
    [("version", "1.0"),
     ("xmlns", "urn:oasis:names:tc:opendocument:xmlns:container")] none
    [.elem "rootfiles" [] none
      [.elem "rootfile"
        [("full-path", "OEBPS/content.opf"),
         ("media-type", "application/oebps-package+xml")] none []]]

/-- `_create_mimetype`: the exact bytes written to the `mimetype` file. -/
def mimetypeContent : String :=
  "application/epub+zip"

/-- The three fixed manifest items `(id, href, media-type)` of
`_create_content_opf`. -/
def fixedManifestItems : List (String × String × String) :=
  [("ncx", "toc.ncx", "application/x-dtbncx+xml"),
   ("cover", "cover.xhtml", "application/xhtml+xml"),
   ("title", "title.xhtml", "application/xhtml+xml")]

/-- `_create_content_opf`: the `OEBPS/content.opf` package document.
`u` is the value returned by the `_generate_uuid()` call in the metadata
block. -/
def create_content_opf (e : EPubExporter) (u : String) : Xml :=
  .elem "package"
    [("version", "2.0"), ("xmlns", "http://www.idpf.org/2007/opf"),
     ("unique-identifier", "bookid")] none
    [.elem "metadata" [] none
      [.elem "dc:title" [] (some e.novel_title) [],
       .elem "dc:creator" [] (some e.author) [],
       .elem "dc:language" [] (some "zh-CN") [],
       .elem "dc:identifier" [("id", "bookid")] (some ("urn:uuid:" ++ u)) [],
       .elem "meta" [("name", "cover"), ("content", "cover")] none []],
     .elem "manifest" [] none
      (fixedManifestItems.map (fun i =>
        .elem "item"
          [("id", i.1), ("href", i.2.1), ("media-type", i.2.2)] none [])
       ++ e.chapters.map (fun ch =>
        .elem "item"
          [("id", chapterId ch.number), ("href", chapterFileName ch.number),
           ("media-type", "application/xhtml+xml")] none [])),
     .elem "spine" [("toc", "ncx")] none
      ([.elem "itemref" [("idref", "cover")] none [],
        .elem "itemref" [("idref", "title")] none []]
       ++ e.chapters.map (fun ch =>
        .elem "itemref" [("idref", chapterId ch.number)] none [])),
     .elem "guide" [] none
      [.elem "reference"
        [("type", "cover"), ("title", "封面"), ("href", "cover.xhtml")]
        none []]]

/-- `_create_toc_ncx`: the `OEBPS/toc.ncx` navigation document.  `u` is the
value of the `_generate_uuid()` call in the head block — a second, fresh
UUID, distinct from the one in `content.opf`. -/
def create_toc_ncx (e : EPubExporter) (u : String) : Xml :=
  .elem "ncx"
    [("version", "2005-1"),
     ("xmlns", "http://www.daisy.org/z3986/2005/ncx/")] none
    [.elem "head" [] none
      [.elem "meta" [("name", "dtb:uid"), ("content", "urn:uuid:" ++ u)] none [],
       .elem "meta" [("name", "dtb:depth"), ("content", "1")] none [],
       .elem "meta" [("name", "dtb:totalPageCount"), ("content", "0")] none [],
       .elem "meta" [("name", "dtb:maxPageNumber"), ("content", "0")] none []],
     .elem "docTitle" [] none [.elem "text" [] (some e.novel_title) []],
     .elem "navMap" [] none
      ([.elem "navPoint" [("id", "cover"), ("playOrder", "1")]
         none [.elem "navLabel" [] (some "封面") [],
               .elem "content" [("src", "cover.xhtml")] none []],
        .elem "navPoint" [("id", "title"), ("playOrder", "2")]
         none [.elem "navLabel" [] (some "标题页") [],
               .elem "content" [("src", "title.xhtml")] none []]]
       ++ e.chapters.enum.map (fun p =>
        .elem "navPoint"
          [("id", chapterId p.2.number), ("playOrder", toString (p.1 + 3))]
          none
          [.elem "navLabel" [] (some (chapterHeading p.2)) [],
           .elem "content" [("src", chapterFileName p.2.number)] none []]))]

/-- The chapter-page CSS text of `_create_chapter_files`. -/
def chapterStyleText : String :=
  "\n                body \x7b font-family: \"Microsoft YaHei\", serif; margin: 2em; line-height: 1.6; \x7d\n                h1 \x7b text-align: center; margin-bottom: 1em; \x7d\n                p \x7b text-indent: 2em; margin: 0.5em 0; \x7d\n            "

/-- The body of one chapter page: the `h1` heading, then — mirroring the
`for line in content_lines` loop — one `p` element appended per line that is
non-blank after stripping. -/
def chapterBodyChildren (c : Chapter) : List Xml :=
  (pySplitChar '\n' c.content).foldl
    (fun acc rawLine =>
      let line := pyStrip rawLine
      if pyTruthy line then acc ++ [Xml.elem "p" [] (some line) []] else acc)
    [Xml.elem "h1" [] (some (chapterHeading c)) []]

/-- One iteration of the `_create_chapter_files` loop: the XHTML document
for a single chapter. -/
def create_chapter_file (c : Chapter) : Xml :=
  .elem "html"
    [("xmlns", "http://www.w3.org/1999/xhtml"), ("xml:lang", "zh-CN")] none
    [.elem "head" [] none
      [.elem "title" [] (some (chapterHeading c)) [],
       .elem "meta" [("charset", "utf-8")] none [],
       .elem "style" [] (some chapterStyleText) []],
     .elem "body" [] none (chapterBodyChildren c)]

/-- `_create_chapter_files`: one `OEBPS/chapter_<number>.xhtml` file per
chapter, in chapter-list order. -/
def create_chapter_files (e : EPubExporter) : List (String × Xml) :=
  e.chapters.map (fun c =>
    ("OEBPS/" ++ chapterFileName c.number, create_chapter_file c))

/-- The cover-page CSS text of `_create_cover_page`. -/
def coverStyleText : String :=
  "\n            body \x7b \n                font-family: \"Microsoft YaHei\", serif; \n                margin: 0; \n                padding: 0; \n                display: flex; \n                justify-content: center; \n                align-items: center; \n                height: 100vh; \n                background: linear-gradient(135deg, #667eea 0%, #764ba2 100%);\n                color: white;\n            \x7d\n            .cover-content \x7b \n                text-align: center; \n                max-width: 600px;\n                padding: 2em;\n            \x7d\n            h1 \x7b \n                font-size: 2.5em; \n                margin-bottom: 0.5em; \n                text-shadow: 2px 2px 4px rgba(0,0,0,0.3);\n            \x7d\n            h2 \x7b \n                font-size: 1.5em; \n                margin-top: 0; \n                font-weight: normal;\n                text-shadow: 1px 1px 2px rgba(0,0,0,0.3);\n            \x7d\n        "

/-- `_create_cover_page`: the `OEBPS/cover.xhtml` document. -/
def create_cover_page (e : EPubExporter) : Xml :=
  .elem "html"
    [("xmlns", "http://www.w3.org/1999/xhtml"), ("xml:lang", "zh-CN")] none
    [.elem "head" [] none
      [.elem "title" [] (some "封面") [],
       .elem "meta" [("charset", "utf-8")] none [],
       .elem "style" [] (some coverStyleText) []],
     .elem "body" [] none
      [.elem "div" [("class", "cover-content")] none
        [.elem "h1" [] (some e.novel_title) [],
         .elem "h2" [] (some e.author) []]]]

/-- The title-page CSS text of `_create_title_page`. -/
def titleStyleText : String :=
  "\n            body \x7b \n                font-family: \"Microsoft YaHei\", serif; \n                margin: 2em; \n                line-height: 1.6; \n            \x7d\n            .title-page \x7b \n                text-align: center; \n                margin-top: 4em;\n            \x7d\n            h1 \x7b \n                font-size: 2.5em; \n                margin-bottom: 0.5em; \n            \x7d\n            h2 \x7b \n                font-size: 1.5em; \n                margin-bottom: 2em; \n                font-weight: normal;\n            \x7d\n            .info \x7b \n                margin-top: 3em; \n                text-align: left; \n                max-width: 400px; \n                margin-left: auto; \n                margin-right: auto;\n            \x7d\n        "

/-- `_create_title_page`: the `OEBPS/title.xhtml` document.  `now` is the
string produced by `datetime.now().strftime('%Y年%m月%d日 %H:%M')` at the
moment of the call. -/
def create_title_page (e : EPubExporter) (now : String) : Xml :=
  .elem "html"
    [("xmlns", "http://www.w3.org/1999/xhtml"), ("xml:lang", "zh-CN")] none
    [.elem "head" [] none
      [.elem "title" [] (some "标题页") [],
       .elem "meta" [("charset", "utf-8")] none [],
       .elem "style" [] (some titleStyleText) []],
     .elem "body" [] none
      [.elem "div" [("class", "title-page")] none
        [.elem "h1" [] (some e.novel_title) [],
         .elem "h2" [] (some e.author) []],
       .elem "div" [("class", "info")] none
        [.elem "p" [] (some ("生成时间: " ++ now)) [],
         .elem "p" [] (some ("总章节数: " ++ toString e.chapters.length)) []]]]

/-- Contents of a file in the scratch directory: the raw `mimetype` string,
or a serialized XML document (serialization is injective on the tree, so
files are compared at tree level). -/
inductive FileData where
  | text (s : String)
  | xml (x : Xml)

/-- The scratch directory produced by steps 1–7 of `export_to_epub`, as
relative path / content pairs in creation order. -/
def tempDirFiles (e : EPubExporter) (uuidOpf uuidNcx now : String) :
    List (String × FileData) :=
  [("META-INF/container.xml", .xml create_container_xml),
   ("mimetype", .text mimetypeContent),
   ("OEBPS/content.opf", .xml (create_content_opf e uuidOpf)),
   ("OEBPS/toc.ncx", .xml (create_toc_ncx e uuidNcx))]
  ++ (create_chapter_files e).map (fun f => (f.1, FileData.xml f.2))
  ++ [("OEBPS/cover.xhtml", .xml (create_cover_page e)),
      ("OEBPS/title.xhtml", .xml (create_title_page e now))]

/-! ### The zip archive (`_create_epub_archive`) -/

/-- Zip compression method: `ZIP_STORED` or the archive-wide default
`ZIP_DEFLATED`. -/
inductive Compression where
  | stored
  | deflated
  deriving DecidableEq

/-- One entry of the produced zip archive: archive name (relative to the
scratch root), compression method, and the entry's uncompressed data. -/
structure ZipEntry where
  arcname : String
  method : Compression
  data : FileData

/-- The data of an entry when it is a raw text file. -/
def ZipEntry.textData (z : ZipEntry) : Option String :=
  match z.data with
  | .text s => some s
  | .xml _ => none

/-- `_create_epub_archive`: given the files of the scratch directory (as
relative path / content pairs, in the order `os.walk` enumerates them),
the list of zip entries in write order.  The `mimetype` file is written
first with `ZIP_STORED`; the walk then writes every other file with the
archive default `ZIP_DEFLATED`, skipping the arcname `mimetype`.  A missing
`mimetype` file would make `epub.write` raise, modelled by `none`. -/
def create_epub_archive (files : List (String × FileData)) :
    Option (List ZipEntry) :=
  match files.find? (fun f => f.1 = "mimetype") with
  | none => none
  | some m =>
      some (⟨"mimetype", .stored, m.2⟩ ::
        (files.filter (fun f => f.1 ≠ "mimetype")).map
          (fun f => ⟨f.1, .deflated, f.2⟩))

/-! ### The effectful driver (`export_to_epub`)

`export_to_epub` is a sequence of statements inside one `try:` block; any of
them may raise.  It is modelled as a stage machine: the stages run in source
order, a fault function says which stage raises (modelling filesystem
errors), the first faulting stage jumps to the `except` handler — which
logs and returns `False` — and the observable filesystem state records
whether the scratch directory and the archive exist. -/

/-- The statements of `export_to_epub`, in source order. -/
inductive Stage where
  | makedirsOutputDir
  | removeOldTempDir
  | makedirsTempDir
  | makedirsMetaInf
  | makedirsOebps
  | containerXml
  | mimetypeFile
  | contentOpf
  | tocNcx
  | chapterFiles
  | coverPage
  | titlePage
  | epubArchive
  | removeTempDir
  deriving DecidableEq

/-- Source order of the stages. -/
def stageList : List Stage :=
  [.makedirsOutputDir, .removeOldTempDir, .makedirsTempDir, .makedirsMetaInf,
   .makedirsOebps, .containerXml, .mimetypeFile, .contentOpf, .tocNcx,
   .chapterFiles, .coverPage, .titlePage, .epubArchive, .removeTempDir]

/-- Observable filesystem state around one export call. -/
structure FsState where
  tempDirExists : Bool
  archiveExists : Bool
  deriving DecidableEq

/-- Effect of one completed stage on the filesystem state. -/
def applyStage (s : Stage) (st : FsState) : FsState :=
  match s with
  | .removeOldTempDir => { st with tempDirExists := false }
  | .makedirsTempDir => { st with tempDirExists := true }
  | .epubArchive => { st with archiveExists := true }
  | .removeTempDir => { st with tempDirExists := false }
  | _ => st

/-- Run the stages in order: the first stage at which `fault` holds raises;
the `except Exception` handler then returns `False` with the state as it
stands.  If no stage faults the run returns `True`. -/
def runStages (fault : Stage → Bool) : List Stage → FsState → Bool × FsState
  | [], st => (true, st)
  | s :: rest, st =>
      if fault s then (false, st) else runStages fault rest (applyStage s st)

/-- `export_to_epub` as observed through the filesystem: the boolean return
value and the final filesystem state.  Total by construction — every
exception is absorbed into the `false` outcome, none escapes. -/
def export_to_epub_run (fault : Stage → Bool) (st : FsState) :
    Bool × FsState :=
  runStages fault stageList st

/-! ### The collaborator entry point (`export_novel_to_epub`)

Reads a directory of `chapter_<n>.txt` files, sorts them by parsed chapter
number, extracts a title from the first non-blank line of each, and feeds
the results to `add_chapter`.  The directory listing is a parameter (the
order of `os.listdir` is unspecified), and reading a file is a partial
function — `none` models an `IOError`, which the loop catches and skips
with `continue`. -/

/-- Python `'\n'.join(pieces)`. -/
def pyJoinNl : List String → String
  | [] => ""
  | [s] => s
  | s :: rest => s ++ "\n" ++ pyJoinNl rest

/-- The pattern `第<num>章` looked for at the start of the title line. -/
def chapterMarker (num : Int) : String :=
  "第" ++ toString num ++ "章"

/-- Parse a chapter number out of a directory entry, as the loop over
`os.listdir` does: the name must start with `chapter_` and end with `.txt`,
and `int()` is applied to the name with every occurrence of `chapter_` and
of `.txt` removed; `none` models the `ValueError` branch (`continue`). -/
def parseChapterFileNum (file : String) : Option Int :=
  if pyStartsWith file "chapter_" && pyEndsWith file ".txt" then
    pyInt? (pyReplace (pyReplace file "chapter_" "") ".txt" "")
  else none

/-- The title-search loop: scan the split lines with their indices; at the
first line that is non-blank after stripping, break with the title (either
the line with the `第<num>章` prefix removed and re-stripped, or the whole
stripped line) and `content_start = i + 1`.  If every line is blank the
loop ends with the initial values `("", 0)`. -/
def findTitleLoop (num : Int) : Nat → List String → String × Nat
  | _, [] => ("", 0)
  | i, l :: rest =>
      let line := pyStrip l
      if pyTruthy line then
        if pyStartsWith line (chapterMarker num) then
          (pyStrip (pyReplace line (chapterMarker num) ""), i + 1)
        else
          (line, i + 1)
      else
        findTitleLoop num (i + 1) rest

/-- Title extraction and content reassembly for one chapter file: the
default title `章节<num>` is used when the extracted title is falsy, and the
content is the lines from `content_start` on, re-joined with newlines. -/
def parseChapterContent (num : Int) (content : String) : String × String :=
  let lines := pySplitChar '\n' content
  let r := findTitleLoop num 0 lines
  let title := if pyTruthy r.1 then r.1 else "章节" ++ toString num
  (title, pyJoinNl (lines.drop r.2))

/-- The comparison used by `chapter_files.sort(key=lambda x: x[0])`. -/
def byChapterNum (p q : Int × String) : Prop :=
  p.1 ≤ q.1

instance : DecidableRel byChapterNum :=
  fun p q => inferInstanceAs (Decidable (p.1 ≤ q.1))

instance : IsTotal (Int × String) byChapterNum :=
  ⟨fun p q => Int.le_total p.1 q.1⟩

instance : IsTrans (Int × String) byChapterNum :=
  ⟨fun _ _ _ hab hbc => le_trans hab hbc⟩

/-- The chapter-collection phase of `export_novel_to_epub`: filter the
listing to parseable `chapter_*.txt` names, sort by chapter number
(`list.sort(key=lambda x: x[0])` is a stable ascending sort, modelled by
the stable `insertionSort` on the first component), then for each file in
sorted order read it (skipping on read failure) and `add_chapter` the
parsed number, title and content. -/
def export_novel_build (novel_title author : String) (listing : List String)
    (read : String → Option String) : EPubExporter :=
  let chapter_files := listing.filterMap
    (fun file => (parseChapterFileNum file).map (fun n => (n, file)))
  let sorted := chapter_files.insertionSort byChapterNum
  sorted.foldl
    (fun ex p =>
      match read p.2 with
      | none => ex
      | some content =>
          let tc := parseChapterContent p.1 content
          ex.add_chapter p.1 tc.1 tc.2)
    (EPubExporter.init novel_title author)

/-- `export_novel_to_epub` end to end: `False` when the chapters directory
is missing or no chapter was collected, otherwise the result of
`export_to_epub` on the built exporter. -/
def export_novel_to_epub_run (chaptersDirExists : Bool)
    (novel_title author : String) (listing : List String)
    (read : String → Option String) (fault : Stage → Bool) (st : FsState) :
    Bool :=
  if !chaptersDirExists then false
  else
    let ex := export_novel_build novel_title author listing read
    if ex.chapters.isEmpty then false
    else (export_to_epub_run fault st).1

/-! ### Observers on the generated documents -/

/-- The `<item>` children of the manifest element of a package document. -/
def manifestItems (opf : Xml) : List Xml :=
  ((opf.findChild "manifest").map Xml.children).getD []

/-- The `id` attributes of the manifest items, in document order. -/
def manifestIds (opf : Xml) : List String :=
  (manifestItems opf).filterMap (fun i => i.attr "id")

/-- The `idref` attributes of the spine's `<itemref>` children, in document
order. -/
def spineIdrefs (opf : Xml) : List String :=
  (((opf.findChild "spine").map Xml.children).getD []).filterMap
    (fun i => i.attr "idref")

/-- The `<navPoint>` children of the navMap of a navigation document. -/
def navPoints (ncx : Xml) : List Xml :=
  ((ncx.findChild "navMap").map Xml.children).getD []

/-- The `id` attributes of the navPoints, in document order. -/
def navPointIds (ncx : Xml) : List String :=
  (navPoints ncx).filterMap (fun p => p.attr "id")

/-- Chapter number encoded in an identifier of the form `chapter_<n>`. -/
def chapterNumOfId (s : String) : Option Int :=
  if pyStartsWith s "chapter_" then pyInt? (String.mk (s.data.drop 8))
  else none

/-- The chapter numbers referenced by the spine, in spine order. -/
def spineChapterNums (opf : Xml) : List Int :=
  (spineIdrefs opf).filterMap chapterNumOfId

/-- The chapter numbers referenced by the navigation map, in nav order. -/
def navChapterNums (ncx : Xml) : List Int :=
  (navPointIds ncx).filterMap chapterNumOfId

/-- The children of the `<body>` element of a content page. -/
def bodyChildren (page : Xml) : List Xml :=
  ((page.findChild "body").map Xml.children).getD []

/-- The texts of the `<p>` children of the body of a content page. -/
def bodyParagraphTexts (page : Xml) : List String :=
  (((page.findChild "body").map Xml.children).getD []).filterMap
    (fun c => if c.tag = "p" then c.text else none)

/-- The stripped non-blank lines of a chapter content string. -/
def nonBlankStrippedLines (content : String) : List String :=
  ((pySplitChar '\n' content).map pyStrip).filter pyTruthy

/-- The text of the first `<p>` of the `class="info"` div of the title page
— the paragraph carrying the generation timestamp. -/
def titlePageTimestampText (page : Xml) : Option String :=
  ((page.findChild "body").bind
    (fun b => b.children.find? (fun d => d.attr "class" = some "info"))).bind
    (fun d => (d.findChild "p").bind Xml.text)

/-- Erase exactly the generated fields of a document tree: the text of
`dc:identifier` elements (the OPF UUID), the `content` attribute of
`meta name="dtb:uid"` elements (the NCX UUID), and the part of a `<p>` text
after the `生成时间: ` prefix (the title-page timestamp).  Two runs differ
only in those fields iff their trees agree after this normalization. -/
def normalizeGenerated : Xml → Xml
  | .elem t a s c =>
      let a' :=
        if t = "meta" ∧
            ((a.find? (fun p => p.1 = "name")).map Prod.snd = some "dtb:uid")
        then a.map (fun p => if p.1 = "content" then ("content", "") else p)
        else a
      let s' :=
        if t = "dc:identifier" then none
        else if t = "p" then
          match s with
          | some str =>
              if pyStartsWith str "生成时间: " then some "生成时间: "
              else some str
          | none => none
        else s
      .elem t a' s' (c.attach.map (fun x => normalizeGenerated x.1))
  decreasing_by
    have hmem := x.2
    simp only [Xml.elem.sizeOf_spec]
    have h := List.sizeOf_lt_of_mem hmem
    omega

/-- The spec's scenario exporter: chapters `(2, "Two", "Line A\nLine B")`
then `(1, "One", "Only line")` added in that order, title `Demo`, author
`Tester`. -/
def demoExporter : EPubExporter :=
  ((EPubExporter.init "Demo" "Tester").add_chapter 2 "Two" "Line A\nLine B"
    ).add_chapter 1 "One" "Only line"

/-! ### Helper lemmas (shared) -/

/-- Unfolding of `normalizeGenerated` with a plain `List.map` on the
children. -/
theorem normalizeGenerated_elem (t : String) (a : List (String × String))
    (s : Option String) (c : List Xml) :
    normalizeGenerated (.elem t a s c) =
      .elem t
        (if t = "meta" ∧
            ((a.find? (fun p => p.1 = "name")).map Prod.snd = some "dtb:uid")
         then a.map (fun p => if p.1 = "content" then ("content", "") else p)
         else a)
        (if t = "dc:identifier" then none
         else if t = "p" then
           match s with
           | some str =>
               if pyStartsWith str "生成时间: " then some "生成时间: "
               else some str
           | none => none
         else s)
        (c.map normalizeGenerated) := by
  rw [normalizeGenerated.eq_def]
  simp [List.attach_map_coe]

/-- Every stage occurs in the stage list. -/
theorem mem_stageList (s : Stage) : s ∈ stageList := by
  cases s <;> simp [stageList]

/-- A stage run returns `true` iff no stage of the list faults. -/
theorem runStages_true_iff (fault : Stage → Bool) (l : List Stage)
    (st : FsState) :
    (runStages fault l st).1 = true ↔ ∀ s ∈ l, fault s = false := by
  induction l generalizing st with
  | nil => simp [runStages]
  | cons s rest ih =>
      cases hf : fault s with
      | true =>
          simp only [runStages, hf, if_true]
          constructor
          · intro h; cases h
          · intro h
            have := h s (List.mem_cons_self s rest)
            rw [hf] at this
            cases this
      | false =>
          simp [runStages, hf, ih]

/-- On a successful run the final state is the fold of the stage effects. -/
theorem runStages_snd_of_true (fault : Stage → Bool) (l : List Stage)
    (st : FsState) (h : (runStages fault l st).1 = true) :
    (runStages fault l st).2 = l.foldl (fun acc s => applyStage s acc) st := by
  induction l generalizing st with
  | nil => simp [runStages]
  | cons s rest ih =>
      cases hf : fault s with
      | true => rw [runStages, hf] at h ⊢; cases h
      | false =>
          rw [runStages, hf] at h ⊢
          simpa [List.foldl] using ih (applyStage s st) (by simpa using h)

/-- The cumulative effect of a full, fault-free run: the scratch directory
is gone and the archive exists, whatever the starting state. -/
theorem export_success_state (fault : Stage → Bool) (st : FsState)
    (h : (export_to_epub_run fault st).1 = true) :
    (export_to_epub_run fault st).2 =
      { tempDirExists := false, archiveExists := true } := by
  rw [export_to_epub_run] at h ⊢
  rw [runStages_snd_of_true fault stageList st h]
  rfl

/-- `export_to_epub` returns `True` iff no stage faults (helper shared by
several theorems below). -/
theorem export_run_true_iff (fault : Stage → Bool) (st : FsState) :
    (export_to_epub_run fault st).1 = true ↔ ∀ s, fault s = false := by
  rw [export_to_epub_run, runStages_true_iff]
  constructor
  · intro h s
    exact h s (mem_stageList s)
  · intro h s _
    exact h s

/-! ### C5 — top-level exception policy of `export_to_epub` -/

/-- C5: `export_to_epub` is total on the fault model — every exception at
any stage is absorbed by the `except Exception` handler into the boolean
result (no exception reaches the caller, no partial-success value exists),
and the result is `True` exactly when every stage completed without
raising. -/
theorem export_true_iff_no_stage_faults (fault : Stage → Bool)
    (st : FsState) :
    (export_to_epub_run fault st).1 = true ↔ ∀ s, fault s = false :=
  export_run_true_iff fault st

/-! ### C2 — scratch-directory cleanup -/

/-- C2 counterexample: with a fault at the archive-packing stage (e.g. disk
full in `_create_epub_archive`), `export_to_epub` returns `False` and the
`epub_temp` scratch directory is still present afterwards — the failure
path does not delete it, contradicting the claim that deletion happens on
both paths. -/
theorem export_failure_leaves_scratch_dir :
    (export_to_epub_run (fun s => s == Stage.epubArchive)
        ⟨false, false⟩).1 = false ∧
    (export_to_epub_run (fun s => s == Stage.epubArchive)
        ⟨false, false⟩).2.tempDirExists = true := by
  decide

/-- C2 amended: on the success path `export_to_epub` deletes the scratch
directory before returning and leaves the archive behind; on the failure
path the scratch directory can survive (it is only removed again at the
start of the next invocation). -/
theorem export_success_deletes_scratch_dir (fault : Stage → Bool)
    (st : FsState) :
    ((export_to_epub_run fault st).1 = true →
      (export_to_epub_run fault st).2.tempDirExists = false ∧
      (export_to_epub_run fault st).2.archiveExists = true) ∧
    ∃ f s₀, (export_to_epub_run f s₀).1 = false ∧
      (export_to_epub_run f s₀).2.tempDirExists = true := by
  constructor
  · intro h
    rw [export_success_state fault st h]
    exact ⟨rfl, rfl⟩
  · exact ⟨fun s => s == Stage.removeTempDir, ⟨false, false⟩, by decide⟩

/-- Witness for the amended C2 theorem: the fault-free run from a clean
state succeeds and its hypothesis is dischargeable. -/
theorem export_success_deletes_scratch_dir_witness :
    (export_to_epub_run (fun _ => false) ⟨false, false⟩).2.tempDirExists
        = false ∧
    (export_to_epub_run (fun _ => false) ⟨false, false⟩).2.archiveExists
        = true :=
  (export_success_deletes_scratch_dir (fun _ => false) ⟨false, false⟩).1
    (by decide)

/-! ### More shared helpers -/

/-- Mapping a function of the payload over an enumerated chapter list
forgets the indices. -/
theorem enumFrom_map_chapterId (n : Nat) (l : List Chapter) :
    (l.enumFrom n).map (fun p => chapterId p.2.number) =
      l.map (fun c => chapterId c.number) := by
  induction l generalizing n with
  | nil => rfl
  | cons a l ih => simp [List.enumFrom, ih]

/-- `filterMap` with a total function is a `map`. -/
theorem filterMap_some_fun {α β : Type} (f : α → β) (l : List α) :
    List.filterMap (fun a => some (f a)) l = l.map f := by
  induction l with
  | nil => rfl
  | cons a l ih => simp [List.filterMap_cons, ih]

/-- The manifest id list of the package document, in document order. -/
theorem manifestIds_eq (e : EPubExporter) (u : String) :
    manifestIds (create_content_opf e u) =
      "ncx" :: "cover" :: "title" ::
        e.chapters.map (fun c => chapterId c.number) := by
  simp [manifestIds, manifestItems, create_content_opf, fixedManifestItems,
    Xml.findChild, Xml.children, Xml.tag, Xml.attr, Xml.attrs,
    List.filterMap_map, Function.comp_def, filterMap_some_fun]

/-- The spine idref list of the package document, in document order. -/
theorem spineIdrefs_eq (e : EPubExporter) (u : String) :
    spineIdrefs (create_content_opf e u) =
      "cover" :: "title" :: e.chapters.map (fun c => chapterId c.number) := by
  simp [spineIdrefs, create_content_opf, Xml.findChild, Xml.children,
    Xml.tag, Xml.attr, Xml.attrs, List.filterMap_map, Function.comp_def,
    filterMap_some_fun]

/-- The navPoint id list of the navigation document, in document order. -/
theorem navPointIds_eq (e : EPubExporter) (v : String) :
    navPointIds (create_toc_ncx e v) =
      "cover" :: "title" :: e.chapters.map (fun c => chapterId c.number) := by
  simp [navPointIds, navPoints, create_toc_ncx, Xml.findChild, Xml.children,
    Xml.tag, Xml.attr, Xml.attrs, List.filterMap_map, Function.comp_def,
    List.enum, filterMap_some_fun, enumFrom_map_chapterId]

/-! ### C1 — chapter order in spine and navigation map -/

/-- C1 counterexample: chapters added in the order 2, 1 (the spec's own
scenario) appear in the spine and the navMap as `chapter_2` before
`chapter_1` — the build does not normalize the order, so the entries are
not in strictly ascending chapter-number order. -/
theorem spine_not_sorted_for_unsorted_input :
    spineChapterNums (create_content_opf demoExporter
        "00000000-0000-0000-0000-000000000000") = [2, 1] ∧
    navChapterNums (create_toc_ncx demoExporter
        "00000000-0000-0000-0000-000000000000") = [2, 1] ∧
    ¬ List.Sorted (· < ·) ([2, 1] : List Int) := by
  decide

/-- C1 amended: the spine and the navMap list the chapter entries in
insertion order — exactly `chapter_<number>` for each chapter in the order
it was added — with no sorting; they are ascending only when the chapters
were added in ascending order. -/
theorem spine_and_nav_list_chapters_in_insertion_order
    (e : EPubExporter) (u v : String) :
    spineIdrefs (create_content_opf e u) =
      "cover" :: "title" :: e.chapters.map (fun c => chapterId c.number) ∧
    navPointIds (create_toc_ncx e v) =
      "cover" :: "title" :: e.chapters.map (fun c => chapterId c.number) :=
  ⟨spineIdrefs_eq e u, navPointIds_eq e v⟩

/-! ### C8 — manifest/spine/nav cross-reference invariants -/

/-- C8: the manifest holds exactly `K` chapter items plus the three fixed
entries; manifest, spine and navMap all derive the chapter identifiers as
`chapter_<number>` from the same chapter numbers in the same order; and
every idref referenced by the spine has a matching manifest id. -/
theorem manifest_spine_nav_consistent (e : EPubExporter) (u v : String) :
    (manifestItems (create_content_opf e u)).length = 3 + e.chapters.length ∧
    manifestIds (create_content_opf e u) =
      "ncx" :: "cover" :: "title" ::
        e.chapters.map (fun c => chapterId c.number) ∧
    spineIdrefs (create_content_opf e u) =
      "cover" :: "title" :: e.chapters.map (fun c => chapterId c.number) ∧
    navPointIds (create_toc_ncx e v) =
      "cover" :: "title" :: e.chapters.map (fun c => chapterId c.number) ∧
    ∀ r ∈ spineIdrefs (create_content_opf e u),
      r ∈ manifestIds (create_content_opf e u) := by
  have hm := manifestIds_eq e u
  have hs := spineIdrefs_eq e u
  have hn := navPointIds_eq e v
  refine ⟨?_, hm, hs, hn, ?_⟩
  · simp [manifestItems, create_content_opf, fixedManifestItems,
      Xml.findChild, Xml.children, Xml.tag]
    omega
  · intro r hr
    rw [hs] at hr
    rw [hm]
    simp only [List.mem_cons] at hr ⊢
    tauto

/-- Witness for C8: at the spec's scenario exporter, the spine idref
`chapter_1` indeed has a matching manifest id. -/
theorem manifest_spine_nav_consistent_witness :
    "chapter_1" ∈ manifestIds (create_content_opf demoExporter "u") :=
  (manifest_spine_nav_consistent demoExporter "u" "v").2.2.2.2
    "chapter_1" (by decide)

/-! ### C6 — duplicate chapter numbers are preserved -/

/-- C6: `add_chapter` validates nothing — two chapters with the same number
are both appended, and the manifest and spine of the export then contain
the identifier `chapter_<number>` twice (no deduplication): their id lists
are not duplicate-free. -/
theorem duplicate_chapter_numbers_preserved (t a : String) (n : Int)
    (t₁ c₁ t₂ c₂ u : String) :
    (((EPubExporter.init t a).add_chapter n t₁ c₁).add_chapter n t₂
        c₂).chapters = [⟨n, t₁, c₁⟩, ⟨n, t₂, c₂⟩] ∧
    manifestIds (create_content_opf
        (((EPubExporter.init t a).add_chapter n t₁ c₁).add_chapter n t₂ c₂)
        u) =
      ["ncx", "cover", "title", chapterId n, chapterId n] ∧
    spineIdrefs (create_content_opf
        (((EPubExporter.init t a).add_chapter n t₁ c₁).add_chapter n t₂ c₂)
        u) =
      ["cover", "title", chapterId n, chapterId n] ∧
    ¬ (manifestIds (create_content_opf
        (((EPubExporter.init t a).add_chapter n t₁ c₁).add_chapter n t₂ c₂)
        u)).Nodup ∧
    ¬ (spineIdrefs (create_content_opf
        (((EPubExporter.init t a).add_chapter n t₁ c₁).add_chapter n t₂ c₂)
        u)).Nodup := by
  have hch : (((EPubExporter.init t a).add_chapter n t₁ c₁).add_chapter n t₂
      c₂).chapters = [⟨n, t₁, c₁⟩, ⟨n, t₂, c₂⟩] := by
    simp [EPubExporter.init, EPubExporter.add_chapter]
  have hm := manifestIds_eq
    (((EPubExporter.init t a).add_chapter n t₁ c₁).add_chapter n t₂ c₂) u
  have hs := spineIdrefs_eq
    (((EPubExporter.init t a).add_chapter n t₁ c₁).add_chapter n t₂ c₂) u
  rw [hch] at hm hs
  simp only [List.map_cons, List.map_nil] at hm hs
  refine ⟨hch, hm, hs, ?_, ?_⟩
  · rw [hm]; simp [List.nodup_cons]
  · rw [hs]; simp [List.nodup_cons]

/-! ### C7 — one paragraph per non-blank line -/

/-- The body-building fold appends exactly one `p` element per line that is
non-blank after stripping, in order. -/
theorem chapterBody_foldl (lines : List String) (start : List Xml) :
    lines.foldl
      (fun acc rawLine =>
        let line := pyStrip rawLine
        if pyTruthy line then acc ++ [Xml.elem "p" [] (some line) []] else acc)
      start =
    start ++ ((lines.map pyStrip).filter pyTruthy).map
      (fun l => Xml.elem "p" [] (some l) []) := by
  induction lines generalizing start with
  | nil => simp
  | cons l rest ih =>
      simp only [List.foldl_cons, List.map_cons, List.filter_cons]
      cases h : pyTruthy (pyStrip l) with
      | true => simp [h, ih]
      | false => simp [h, ih]

/-- `bodyParagraphTexts` reads the `p` children of `bodyChildren`. -/
theorem bodyParagraphTexts_eq (page : Xml) :
    bodyParagraphTexts page =
      (bodyChildren page).filterMap
        (fun c => if c.tag = "p" then c.text else none) := rfl

/-- C7: a chapter page's body is the `h1` heading followed by exactly one
`p` element per non-blank input line (each line stripped, blank lines
dropped), in input order; in particular content `"Line A\nLine B"` yields
the two paragraphs `"Line A"`, `"Line B"` and `"Only line"` yields the one
paragraph `"Only line"`. -/
theorem chapter_page_paragraphs (c : Chapter) :
    bodyChildren (create_chapter_file c) =
      Xml.elem "h1" [] (some (chapterHeading c)) [] ::
        (nonBlankStrippedLines c.content).map
          (fun l => Xml.elem "p" [] (some l) []) ∧
    bodyParagraphTexts (create_chapter_file c) =
      nonBlankStrippedLines c.content ∧
    bodyParagraphTexts (create_chapter_file
        { number := 2, title := "Two", content := "Line A\nLine B" }) =
      ["Line A", "Line B"] ∧
    bodyParagraphTexts (create_chapter_file
        { number := 1, title := "One", content := "Only line" }) =
      ["Only line"] := by
  have hb : bodyChildren (create_chapter_file c) =
      Xml.elem "h1" [] (some (chapterHeading c)) [] ::
        (nonBlankStrippedLines c.content).map
          (fun l => Xml.elem "p" [] (some l) []) := by
    simp [bodyChildren, create_chapter_file, Xml.findChild, Xml.children,
      Xml.tag, chapterBodyChildren, chapterBody_foldl, nonBlankStrippedLines]
  refine ⟨hb, ?_, by decide, by decide⟩
  rw [bodyParagraphTexts_eq, hb]
  simp [List.filterMap_cons, Xml.tag, Xml.text, List.filterMap_map,
    Function.comp_def, filterMap_some_fun]

/-! ### C9 — empty chapter list -/

/-- C9: with no chapters added, a fault-free export still returns `True`,
and the produced documents are structurally valid but content-free: the
manifest holds only the three fixed entries, the spine and navMap list only
cover and title, no chapter page is generated, and the scratch directory
holds exactly the six fixed files. -/
theorem empty_chapter_list_export (t a u v now : String)
    (fault : Stage → Bool) (h : ∀ s, fault s = false) :
    (export_to_epub_run fault ⟨false, false⟩).1 = true ∧
    manifestIds (create_content_opf (EPubExporter.init t a) u) =
      ["ncx", "cover", "title"] ∧
    spineIdrefs (create_content_opf (EPubExporter.init t a) u) =
      ["cover", "title"] ∧
    navPointIds (create_toc_ncx (EPubExporter.init t a) v) =
      ["cover", "title"] ∧
    create_chapter_files (EPubExporter.init t a) = [] ∧
    (tempDirFiles (EPubExporter.init t a) u v now).map Prod.fst =
      ["META-INF/container.xml", "mimetype", "OEBPS/content.opf",
       "OEBPS/toc.ncx", "OEBPS/cover.xhtml", "OEBPS/title.xhtml"] := by
  refine ⟨?_, ?_, ?_, ?_, ?_, ?_⟩
  · rw [export_run_true_iff]
    exact h
  · simpa [EPubExporter.init] using manifestIds_eq (EPubExporter.init t a) u
  · simpa [EPubExporter.init] using spineIdrefs_eq (EPubExporter.init t a) u
  · simpa [EPubExporter.init] using navPointIds_eq (EPubExporter.init t a) v
  · simp [create_chapter_files, EPubExporter.init]
  · simp [tempDirFiles, create_chapter_files, EPubExporter.init]

/-- Witness for C9 at concrete inputs, with the no-fault hypothesis
discharged. -/
theorem empty_chapter_list_export_witness :
    (export_to_epub_run (fun _ => false) ⟨false, false⟩).1 = true ∧
    manifestIds (create_content_opf (EPubExporter.init "书" "作者") "u") =
      ["ncx", "cover", "title"] ∧
    spineIdrefs (create_content_opf (EPubExporter.init "书" "作者") "u") =
      ["cover", "title"] ∧
    navPointIds (create_toc_ncx (EPubExporter.init "书" "作者") "v") =
      ["cover", "title"] ∧
    create_chapter_files (EPubExporter.init "书" "作者") = [] ∧
    (tempDirFiles (EPubExporter.init "书" "作者") "u" "v" "t").map Prod.fst =
      ["META-INF/container.xml", "mimetype", "OEBPS/content.opf",
       "OEBPS/toc.ncx", "OEBPS/cover.xhtml", "OEBPS/title.xhtml"] :=
  empty_chapter_list_export "书" "作者" "u" "v" "t" (fun _ => false)
    (fun _ => rfl)

/-! ### C4 — archive layout -/

/-- No file under `OEBPS/` is called `mimetype`. -/
theorem oebps_ne_mimetype (x : String) : ("OEBPS/" ++ x) ≠ "mimetype" := by
  intro hcontra
  have h1 : ("OEBPS/" ++ x).data.head? = some 'O' := by
    rw [String.data_append]; rfl
  rw [hcontra] at h1
  exact absurd h1 (by decide)

/-- In the scratch directory, the only file named `mimetype` carries the
literal marker text written by `_create_mimetype`. -/
theorem tempDirFiles_mimetype (e : EPubExporter) (u v now : String) :
    ∀ f ∈ tempDirFiles e u v now, f.1 = "mimetype" →
      f.2 = FileData.text mimetypeContent := by
  intro f hf h1
  simp only [tempDirFiles, create_chapter_files, List.map_map,
    List.mem_append, List.mem_cons, List.mem_singleton, List.mem_map,
    List.not_mem_nil, or_false] at hf
  rcases hf with (((rfl | rfl | rfl | rfl) | ⟨c, -, rfl⟩) | rfl | rfl)
  · exact absurd h1 (by simp)
  · rfl
  · exact absurd h1 (by simp)
  · exact absurd h1 (by simp)
  · simp only [Function.comp_apply] at h1
    exact absurd h1 (oebps_ne_mimetype _)
  · exact absurd h1 (by simp)
  · exact absurd h1 (by simp)

/-- C4: for every chapter list (the empty one included) and every
enumeration order of the scratch files, the produced archive has
`mimetype` as its first entry, stored uncompressed with exactly the bytes
`application/epub+zip`, and every other entry is deflated under its
scratch-relative name. -/
theorem archive_mimetype_first_rest_deflated (e : EPubExporter)
    (u v now : String) (walkFiles : List (String × FileData))
    (hperm : walkFiles.Perm (tempDirFiles e u v now)) :
    ∃ entries, create_epub_archive walkFiles = some entries ∧
      entries.head? = some ⟨"mimetype", Compression.stored,
        FileData.text "application/epub+zip"⟩ ∧
      ∀ z ∈ entries.tail, z.method = Compression.deflated ∧
        z.arcname ≠ "mimetype" ∧ z.arcname ∈ walkFiles.map Prod.fst := by
  have hmem : ("mimetype", FileData.text mimetypeContent) ∈ walkFiles :=
    hperm.mem_iff.mpr (by simp [tempDirFiles])
  cases hfind : walkFiles.find? (fun f => f.1 = "mimetype") with
  | none =>
      exfalso
      have := List.find?_eq_none.mp hfind _ hmem
      simp at this
  | some m =>
      have hm2 : m.2 = FileData.text mimetypeContent := by
        have hm1 : m.1 = "mimetype" := by
          simpa using List.find?_some hfind
        exact tempDirFiles_mimetype e u v now m
          (hperm.mem_iff.mp (List.mem_of_find?_eq_some hfind)) hm1
      refine ⟨⟨"mimetype", .stored, m.2⟩ ::
          (walkFiles.filter (fun f => f.1 ≠ "mimetype")).map
            (fun f => ⟨f.1, .deflated, f.2⟩), ?_, ?_, ?_⟩
      · simp [create_epub_archive, hfind]
      · rw [hm2]; rfl
      · intro z hz
        simp only [List.tail_cons] at hz
        obtain ⟨f, hf, rfl⟩ := List.mem_map.mp hz
        obtain ⟨hfmem, hfne⟩ := List.mem_filter.mp hf
        exact ⟨rfl, by simpa using hfne, List.mem_map.mpr ⟨f, hfmem, rfl⟩⟩

/-- Witness for C4: the archive built from the scratch directory of the
scenario exporter, enumerated in creation order. -/
theorem archive_mimetype_first_rest_deflated_witness :
    ∃ entries, create_epub_archive
        (tempDirFiles demoExporter "u" "v" "now") = some entries ∧
      entries.head? = some ⟨"mimetype", Compression.stored,
        FileData.text "application/epub+zip"⟩ ∧
      ∀ z ∈ entries.tail, z.method = Compression.deflated ∧
        z.arcname ≠ "mimetype" ∧
        z.arcname ∈ (tempDirFiles demoExporter "u" "v" "now").map Prod.fst :=
  archive_mimetype_first_rest_deflated demoExporter "u" "v" "now"
    (tempDirFiles demoExporter "u" "v" "now") (List.Perm.refl _)

/-! ### C3 — what can differ between two identical-input exports -/

/-- A list is a prefix of itself extended by anything. -/
theorem isPrefixOf_append_self (l t : List Char) :
    l.isPrefixOf (l ++ t) = true := by
  induction l with
  | nil => simp [List.isPrefixOf]
  | cons a as ih => simp [List.isPrefixOf, ih]

/-- `startswith` holds on a string built from that very prefix. -/
theorem pyStartsWith_append (p s : String) :
    pyStartsWith (p ++ s) p = true := by
  simp [pyStartsWith, String.data_append, isPrefixOf_append_self]

/-- The chapter-count line of the title page never looks like the
timestamp line. -/
theorem total_line_not_timestamp (x : String) :
    pyStartsWith ("总章节数: " ++ x) "生成时间: " = false := by
  simp only [pyStartsWith, String.data_append]
  rfl

/-- C3 counterexample: two exports from the identical exporter — even with
identical generated UUIDs — produce different title pages when the clock
string differs, because `_create_title_page` embeds `datetime.now()`; the
archives therefore do not differ *only* in the generated unique
identifiers. -/
theorem title_page_embeds_timestamp :
    create_title_page demoExporter "2025年01月01日 10:00" ≠
      create_title_page demoExporter "2025年01月01日 10:01" ∧
    titlePageTimestampText
        (create_title_page demoExporter "2025年01月01日 10:00") =
      some "生成时间: 2025年01月01日 10:00" ∧
    titlePageTimestampText
        (create_title_page demoExporter "2025年01月01日 10:01") =
      some "生成时间: 2025年01月01日 10:01" := by
  refine ⟨?_, by decide, by decide⟩
  intro hcontra
  exact absurd (congrArg titlePageTimestampText hcontra) (by decide)

/-- C3 amended: two exports from assemblers with identical inputs have
identical structural content — the same manifest/spine/nav id lists and
the same chapter, cover and container documents — and differ at most in
the two generated UUIDs and in the title page's generation timestamp:
after erasing exactly those fields the documents coincide. -/
theorem identical_inputs_differ_only_in_uuids_and_timestamp
    (e : EPubExporter) (u₁ u₂ v₁ v₂ n₁ n₂ : String) :
    manifestIds (create_content_opf e u₁) =
      manifestIds (create_content_opf e u₂) ∧
    spineIdrefs (create_content_opf e u₁) =
      spineIdrefs (create_content_opf e u₂) ∧
    navPointIds (create_toc_ncx e v₁) =
      navPointIds (create_toc_ncx e v₂) ∧
    normalizeGenerated (create_content_opf e u₁) =
      normalizeGenerated (create_content_opf e u₂) ∧
    normalizeGenerated (create_toc_ncx e v₁) =
      normalizeGenerated (create_toc_ncx e v₂) ∧
    normalizeGenerated (create_title_page e n₁) =
      normalizeGenerated (create_title_page e n₂) ∧
    (tempDirFiles e u₁ v₁ n₁).map Prod.fst =
      (tempDirFiles e u₂ v₂ n₂).map Prod.fst := by
  refine ⟨?_, ?_, ?_, ?_, ?_, ?_, ?_⟩
  · rw [manifestIds_eq, manifestIds_eq]
  · rw [spineIdrefs_eq, spineIdrefs_eq]
  · rw [navPointIds_eq, navPointIds_eq]
  · simp [create_content_opf, normalizeGenerated_elem, List.map_map,
      Function.comp_def, fixedManifestItems]
  · simp [create_toc_ncx, normalizeGenerated_elem, List.map_map,
      Function.comp_def]
  · simp [create_title_page, normalizeGenerated_elem, pyStartsWith_append,
      total_line_not_timestamp]
  · simp [tempDirFiles, create_chapter_files]

/-! ### C10 — the collaborator feeds chapters in ascending order -/

/-- The chapter list accumulated by the read-and-add loop of
`export_novel_to_epub`: one chapter per successfully read file, in loop
order. -/
theorem chapters_foldl (read : String → Option String)
    (l : List (Int × String)) (ex : EPubExporter) :
    (l.foldl
      (fun ex p =>
        match read p.2 with
        | none => ex
        | some content =>
            ex.add_chapter p.1 (parseChapterContent p.1 content).1
              (parseChapterContent p.1 content).2) ex).chapters =
      ex.chapters ++ l.filterMap
        (fun p => (read p.2).map (fun content =>
          ({ number := p.1,
             title := (parseChapterContent p.1 content).1,
             content := (parseChapterContent p.1 content).2 } : Chapter))) := by
  induction l generalizing ex with
  | nil => simp
  | cons p rest ih =>
      cases hr : read p.2 with
      | none => simp [List.foldl_cons, List.filterMap_cons, hr, ih]
      | some content =>
          simp only [List.foldl_cons, hr]
          rw [ih]
          simp [EPubExporter.add_chapter, List.filterMap_cons, hr]

/-- The numbers of the kept chapters form a sublist of the numbers of the
sorted file list (read failures drop entries but never reorder them). -/
theorem map_number_filterMap_sublist (read : String → Option String)
    (l : List (Int × String)) :
    ((l.filterMap (fun p => (read p.2).map (fun content =>
        ({ number := p.1,
           title := (parseChapterContent p.1 content).1,
           content := (parseChapterContent p.1 content).2 } : Chapter)))).map
      (fun c => c.number)).Sublist (l.map Prod.fst) := by
  induction l with
  | nil => simp
  | cons p rest ih =>
      cases hr : read p.2 with
      | none =>
          simp only [List.filterMap_cons, hr, List.map_cons]
          exact List.Sublist.cons _ ih
      | some content =>
          simp only [List.filterMap_cons, hr, Option.map_some', List.map_cons]
          exact List.Sublist.cons₂ _ ih

/-- C10: `export_novel_to_epub` sorts the parseable `chapter_<n>.txt`
files by parsed chapter number before calling `add_chapter`, so the
assembler receives the chapters already in ascending number order — for
every directory listing order and read outcome — and every chapter that
reaches the assembler comes from a listing entry whose name parsed to its
number (non-parsing names are skipped). -/
theorem collaborator_sorts_chapters (t a : String) (listing : List String)
    (read : String → Option String) :
    List.Sorted (· ≤ ·)
      ((export_novel_build t a listing read).chapters.map
        (fun c => c.number)) ∧
    ∀ c ∈ (export_novel_build t a listing read).chapters,
      ∃ f ∈ listing, parseChapterFileNum f = some c.number := by
  have hch : (export_novel_build t a listing read).chapters =
      ((listing.filterMap (fun file =>
          (parseChapterFileNum file).map (fun n => (n, file)))).insertionSort
            byChapterNum).filterMap
        (fun p => (read p.2).map (fun content =>
          ({ number := p.1,
             title := (parseChapterContent p.1 content).1,
             content := (parseChapterContent p.1 content).2 } : Chapter))) := by
    simp only [export_novel_build]
    rw [chapters_foldl]
    simp [EPubExporter.init]
  constructor
  · rw [hch]
    refine List.Pairwise.sublist (map_number_filterMap_sublist read _) ?_
    refine List.pairwise_map.mpr ?_
    exact List.sorted_insertionSort byChapterNum _
  · intro c hc
    rw [hch] at hc
    obtain ⟨p, hp, hpc⟩ := List.mem_filterMap.mp hc
    have hp' : p ∈ listing.filterMap (fun file =>
        (parseChapterFileNum file).map (fun n => (n, file))) :=
      (List.perm_insertionSort byChapterNum _).mem_iff.mp hp
    obtain ⟨f, hf, hpf⟩ := List.mem_filterMap.mp hp'
    cases hparse : parseChapterFileNum f with
    | none => rw [hparse] at hpf; cases hpf
    | some n =>
        rw [hparse] at hpf
        simp only [Option.map_some', Option.some.injEq] at hpf
        cases hr : read p.2 with
        | none => rw [hr] at hpc; cases hpc
        | some content =>
            rw [hr] at hpc
            simp only [Option.map_some', Option.some.injEq] at hpc
            subst hpc
            refine ⟨f, hf, ?_⟩
            rw [hparse]
            simp [← hpf]

/-- Witness for C10: in the listing `chapter_2.txt, chapter_1.txt`, the
chapter numbered 1 that reaches the assembler comes from the file
`chapter_1.txt`. -/
theorem collaborator_sorts_chapters_witness :
    ∃ f ∈ (["chapter_2.txt", "chapter_1.txt"] : List String),
      parseChapterFileNum f = some (1 : Int) :=
  (collaborator_sorts_chapters "T" "A" ["chapter_2.txt", "chapter_1.txt"]
      (fun _ => some "x")).2 ⟨1, "x", ""⟩ (by decide)
